import Mathlib

/-!
Shallow embedding of the multi_yield Anchor program
(src/multi_yield/src/lib.rs) for checking its specification.

Machine integers are modelled as `Nat` (u64, u8) and `Int` (i64) with the
Rust operation semantics made explicit:
  * `checked_*`  -> `Option Nat` (None on overflow/underflow);
  * `saturating_*` -> clamped result;
  * plain `*`, `+` on u64/i64 -> wrapping modulo 2^64 (release-profile
    semantics; the point the theorems care about is that these operations
    are NOT checked and never surface `ArithmeticOverflow`);
  * `.unwrap()` on a checked op -> `Option` result of the whole handler
    (a panic aborts the transaction).
External capabilities (token transfer / mint CPIs, the Pyth feed load,
`Clock::get`) are modelled as parameters and as an emitted list of mint
events; account addresses (`Pubkey`) are modelled as `Nat`, with the
insurance-pool "configured" test (`key != Pubkey::default()`) passed in as
a boolean.
-/

namespace MultiYield

/-- 2^64, the modulus of u64 arithmetic. -/
def U64_MOD : Nat := 2 ^ 64

/-- Rust `u64::checked_add`. -/
def u64_checked_add (a b : Nat) : Option Nat :=
  if a + b < U64_MOD then some (a + b) else none

/-- Rust `u64::checked_sub`. -/
def u64_checked_sub (a b : Nat) : Option Nat :=
  if b ≤ a then some (a - b) else none

/-- Rust `u64::checked_div` (fails only on division by zero). -/
def u64_checked_div (a b : Nat) : Option Nat :=
  if b = 0 then none else some (a / b)

/-- Rust `u64::saturating_add`. -/
def u64_saturating_add (a b : Nat) : Nat :=
  min (a + b) (U64_MOD - 1)

/-- Rust `u64::saturating_sub` (Nat subtraction already truncates at 0). -/
def u64_saturating_sub (a b : Nat) : Nat := a - b

/-- Rust u64 `*` in release profile: wraps modulo 2^64. -/
def u64_wrapping_mul (a b : Nat) : Nat := a * b % U64_MOD

/-- Rust u64 `+` in release profile: wraps modulo 2^64. -/
def u64_wrapping_add (a b : Nat) : Nat := (a + b) % U64_MOD

/-- Reduce an Int into the i64 range by two's-complement wrap-around. -/
def i64_wrap (x : Int) : Int := (x + 2 ^ 63) % 2 ^ 64 - 2 ^ 63

/-- Rust `i64::saturating_sub`: clamps the difference to the i64 range. -/
def i64_saturating_sub (a b : Int) : Int :=
  if a - b > 2 ^ 63 - 1 then 2 ^ 63 - 1
  else if a - b < -(2 ^ 63) then -(2 ^ 63)
  else a - b

/-- The program's `CustomError` enum (lib.rs, `#[error_code]`). -/
inductive CustomError where
  | FlashLoanDetected
  | InvalidTradePrice
  | EarlyUnstakePenalty
  | NothingToClaim
  | InvalidRewardParameters
  | OracleError
  | NegativePythPrice
  | ConversionError
  | ArithmeticOverflow
  | InsufficientUniqueTraders
  | NFTFloorTooLow
  | GovernanceNotApproved
deriving DecidableEq, Repr

/-- Destinations of `token::mint_to` CPIs issued by the handlers. -/
inductive MintDest where
  | insurancePool
  | trader
  | daoTreasury
  | stakerReward
  | lpReward
deriving DecidableEq, Repr

/-- One `token::mint_to(dest, amount)` call emitted by a handler. -/
structure MintEvent where
  dest : MintDest
  amount : Nat
deriving DecidableEq, Repr

/-- `GlobalState` account: mint pubkey, PDA bump, protocol-wide volume. -/
structure GlobalState where
  mint : Nat
  bump : Nat
  protocol_wide_volume : Nat
deriving DecidableEq, Repr

/-- `TraderVolume` account: per-trader cumulative volume and last trade time. -/
structure TraderVolume where
  trader : Nat
  total_volume : Nat
  last_trade_time : Int
deriving DecidableEq, Repr

/-- `StakeAccount`: owner, staked amount, stake timestamp, auto-compound flag. -/
structure StakeAccount where
  owner : Nat
  amount : Nat
  stake_timestamp : Int
  auto_compound : Bool
deriving DecidableEq, Repr

/-- `LpStakeAccount`: owner, staked LP amount, tier multiplier (u8). -/
structure LpStakeAccount where
  owner : Nat
  lp_staked : Nat
  reward_multiplier : Nat
deriving DecidableEq, Repr

/-- `Governance` account: vote count, reward percentage, LP boost, approval. -/
structure Governance where
  total_votes : Nat
  reward_percentage : Nat
  lp_boost : Nat
  dao_approved : Bool
deriving DecidableEq, Repr

/-- The init handler: records the mint key and the bump in global state.
It never touches `protocol_wide_volume`. -/
def init_global_state (gs : GlobalState) (mint_key bump : Nat) : GlobalState :=
  { gs with mint := mint_key, bump := bump }

/-- `reward_trade` handler.  Inputs beyond the instruction arguments:
`feed_ok` models whether `load_price_feed_from_account_info` succeeds,
`pyth_price` the i64 price it returns, `insurance_configured` the test
`insurance_pool_account.key != Pubkey::default()`, and `current_time` the
clock.  Returns the post-state of the two touched accounts plus the list
of mint CPIs, or the error of the first failing `require!`/`?`. -/
def reward_trade (gs : GlobalState) (tv : TraderVolume)
    (trade_amount trade_price unique_trader_count : Nat)
    (feed_ok : Bool) (pyth_price : Int) (insurance_configured : Bool)
    (current_time : Int) :
    Except CustomError (GlobalState × TraderVolume × List MintEvent) :=
  if ¬ (unique_trader_count ≥ 5) then .error .InsufficientUniqueTraders
  else if ¬ feed_ok then .error .OracleError
  else if ¬ (pyth_price ≥ 0) then .error .NegativePythPrice
  else
    -- try_into::<u64> on an i64 known ≥ 0 always succeeds
    let price_val_u64 : Nat := pyth_price.toNat
    match u64_checked_div price_val_u64 20 with
    | none => .error .ArithmeticOverflow
    | some five_percent =>
      match u64_checked_sub price_val_u64 five_percent with
      | none => .error .ArithmeticOverflow
      | some lower_bound =>
        match u64_checked_add price_val_u64 five_percent with
        | none => .error .ArithmeticOverflow
        | some upper_bound =>
          if ¬ (trade_price ≥ lower_bound ∧ trade_price ≤ upper_bound) then
            .error .InvalidTradePrice
          else if ¬ (current_time > i64_wrap (tv.last_trade_time + 60)) then
            .error .FlashLoanDetected
          else
            let tv2 : TraderVolume :=
              { tv with
                total_volume := u64_saturating_add tv.total_volume trade_amount,
                last_trade_time := current_time }
            let dynamic_adjust : Nat :=
              if gs.protocol_wide_volume > 1000000000 then 2 else 1
            let base_multiplier : Nat :=
              if tv2.total_volume > 1000000 then 5
              else if tv2.total_volume > 100000 then 2
              else 1
            let reward_multiplier := u64_wrapping_mul base_multiplier dynamic_adjust
            let reward_amount := u64_wrapping_mul trade_amount reward_multiplier / 1000
            let insurance_mints : List MintEvent :=
              if insurance_configured then
                [⟨MintDest.insurancePool, reward_amount / 10⟩]
              else []
            .ok (gs, tv2, insurance_mints ++ [⟨MintDest.trader, reward_amount⟩])

/-- Host transaction semantics around `reward_trade`: a failed instruction
rolls every account back to its pre-state and emits no mint. -/
def reward_trade_step (gs : GlobalState) (tv : TraderVolume)
    (trade_amount trade_price unique_trader_count : Nat)
    (feed_ok : Bool) (pyth_price : Int) (insurance_configured : Bool)
    (current_time : Int) :
    GlobalState × TraderVolume × List MintEvent × Option CustomError :=
  match reward_trade gs tv trade_amount trade_price unique_trader_count
      feed_ok pyth_price insurance_configured current_time with
  | .error e => (gs, tv, [], some e)
  | .ok (gs2, tv2, m) => (gs2, tv2, m, none)

/-- `stake_tokens` handler (the token transfer CPI is an external
capability assumed to succeed).  `none` models the `.unwrap()` panic on
checked-add overflow, which aborts the whole transaction. -/
def stake_tokens (st : StakeAccount) (staker_authority : Nat)
    (amount : Nat) (auto_compound : Bool) (current_time : Int) :
    Option StakeAccount :=
  match u64_checked_add st.amount amount with
  | none => none
  | some amount2 =>
    some { owner := staker_authority
           amount := amount2
           stake_timestamp := current_time
           auto_compound := auto_compound }

/-- `claim_stake_rewards` handler.  `boosted` is the linked
`nft_stake.boosted` flag; `current_time` the clock.  Returns the
post-state of the staker account and the mint CPIs issued (DAO-treasury
penalty first, then the staker reward when not auto-compounding). -/
def claim_stake_rewards (st : StakeAccount) (boosted : Bool)
    (current_time : Int) : StakeAccount × List MintEvent :=
  let time_staked := i64_saturating_sub current_time st.stake_timestamp
  let min_duration : Int := 7 * 24 * 60 * 60
  let penalty_rate : Nat := if time_staked < min_duration then 10 else 0
  let base_reward := st.amount / 10
  let loyalty_multiplier : Nat :=
    if time_staked ≥ 180 * 24 * 60 * 60 then 15
    else if time_staked ≥ 90 * 24 * 60 * 60 then 13
    else if time_staked ≥ 30 * 24 * 60 * 60 then 11
    else 10
  let loyalty_reward := u64_wrapping_mul base_reward loyalty_multiplier / 10
  let final_reward0 :=
    if boosted then u64_wrapping_add loyalty_reward (loyalty_reward / 5)
    else loyalty_reward
  let treasury_fee := u64_wrapping_mul final_reward0 penalty_rate / 100
  let final_reward := u64_saturating_sub final_reward0 treasury_fee
  let treasury_mints : List MintEvent :=
    if treasury_fee > 0 then [⟨MintDest.daoTreasury, treasury_fee⟩] else []
  if st.auto_compound then
    ({ st with amount := u64_saturating_add st.amount final_reward },
     treasury_mints)
  else
    (st, treasury_mints ++ [⟨MintDest.stakerReward, final_reward⟩])

/-- `stake_lp_tokens` handler; `none` models the `.unwrap()` panic on
checked-add overflow.  The tier multiplier is recomputed from the new
cumulative amount. -/
def stake_lp_tokens (lp : LpStakeAccount) (staker_authority : Nat)
    (amount : Nat) : Option LpStakeAccount :=
  match u64_checked_add lp.lp_staked amount with
  | none => none
  | some tvl =>
    some { owner := staker_authority
           lp_staked := tvl
           reward_multiplier :=
             if tvl > 1000000 then 5
             else if tvl > 100000 then 2
             else 1 }

/-- `claim_lp_rewards` handler: mints `lp_staked * reward_multiplier / 100`
and leaves the LP stake account untouched. -/
def claim_lp_rewards (lp : LpStakeAccount) : LpStakeAccount × List MintEvent :=
  (lp, [⟨MintDest.lpReward, u64_wrapping_mul lp.lp_staked lp.reward_multiplier / 100⟩])

/-- `update_reward_parameters` handler (u8 arguments modelled as Nat). -/
def update_reward_parameters (g : Governance) (new_reward new_lp_boost : Nat) :
    Except CustomError Governance :=
  if ¬ (new_reward ≤ 50) then .error .InvalidRewardParameters
  else if ¬ (new_lp_boost ≤ 10) then .error .InvalidRewardParameters
  else if ¬ g.dao_approved then .error .GovernanceNotApproved
  else .ok { g with reward_percentage := new_reward, lp_boost := new_lp_boost }

/-- Host transaction semantics around `update_reward_parameters`: a failed
instruction leaves the governance account at its pre-state. -/
def update_reward_parameters_step (g : Governance) (new_reward new_lp_boost : Nat) :
    Governance × Option CustomError :=
  match update_reward_parameters g new_reward new_lp_boost with
  | .error e => (g, some e)
  | .ok g2 => (g2, none)

/-! ## Helper lemmas -/

/-- Division by the constant 20 never fails. -/
theorem checked_div_20 (pv : Nat) : u64_checked_div pv 20 = some (pv / 20) := by
  simp [u64_checked_div]

/-- Subtracting the five-percent slice never underflows. -/
theorem checked_sub_five (pv : Nat) :
    u64_checked_sub pv (pv / 20) = some (pv - pv / 20) := by
  simp [u64_checked_sub, Nat.div_le_self]

/-- Adding the five-percent slice succeeds when the sum fits in u64. -/
theorem checked_add_five_of_lt (pv : Nat) (h : pv + pv / 20 < U64_MOD) :
    u64_checked_add pv (pv / 20) = some (pv + pv / 20) := by
  simp [u64_checked_add, h]

/-- Adding the five-percent slice overflows when the sum does not fit. -/
theorem checked_add_five_of_ge (pv : Nat) (h : ¬ pv + pv / 20 < U64_MOD) :
    u64_checked_add pv (pv / 20) = none := by
  simp [u64_checked_add, h]

/-- `i64_wrap` is the identity on the i64 range. -/
theorem i64_wrap_eq_of_mem (x : Int) (h1 : -(2 ^ 63) ≤ x) (h2 : x < 2 ^ 63) :
    i64_wrap x = x := by
  unfold i64_wrap
  have hx : (x + 2 ^ 63) % 2 ^ 64 = x + 2 ^ 63 :=
    Int.emod_eq_of_lt (by omega) (by omega)
  omega

/-- Unconditional flattening of `reward_trade`: the checked price-band
arithmetic is resolved, leaving a plain chain of the program's checks.
Division by 20 never fails and the lower-bound subtraction never
underflows, so the only `ArithmeticOverflow` source is the upper-bound
addition. -/
theorem reward_trade_spec (gs : GlobalState) (tv : TraderVolume)
    (trade_amount trade_price unique_trader_count : Nat)
    (feed_ok : Bool) (pyth_price : Int) (insurance_configured : Bool)
    (current_time : Int) :
    reward_trade gs tv trade_amount trade_price unique_trader_count
        feed_ok pyth_price insurance_configured current_time =
      (if ¬ (unique_trader_count ≥ 5) then .error .InsufficientUniqueTraders
      else if ¬ feed_ok then .error .OracleError
      else if ¬ (pyth_price ≥ 0) then .error .NegativePythPrice
      else if ¬ (pyth_price.toNat + pyth_price.toNat / 20 < U64_MOD) then
        .error .ArithmeticOverflow
      else if ¬ (trade_price ≥ pyth_price.toNat - pyth_price.toNat / 20 ∧
          trade_price ≤ pyth_price.toNat + pyth_price.toNat / 20) then
        .error .InvalidTradePrice
      else if ¬ (current_time > i64_wrap (tv.last_trade_time + 60)) then
        .error .FlashLoanDetected
      else
        let total_volume2 := u64_saturating_add tv.total_volume trade_amount
        let reward_multiplier :=
          u64_wrapping_mul
            (if total_volume2 > 1000000 then 5
             else if total_volume2 > 100000 then 2 else 1)
            (if gs.protocol_wide_volume > 1000000000 then 2 else 1)
        let reward_amount := u64_wrapping_mul trade_amount reward_multiplier / 1000
        .ok (gs,
          { tv with total_volume := total_volume2, last_trade_time := current_time },
          (if insurance_configured then
             [⟨MintDest.insurancePool, reward_amount / 10⟩]
           else []) ++ [⟨MintDest.trader, reward_amount⟩])) := by
  unfold reward_trade
  refine if_congr Iff.rfl rfl ?_
  refine if_congr Iff.rfl rfl ?_
  refine if_congr Iff.rfl rfl ?_
  by_cases hov : pyth_price.toNat + pyth_price.toNat / 20 < U64_MOD
  · rw [if_neg (not_not_intro hov)]
    simp only [checked_div_20, checked_sub_five, checked_add_five_of_lt _ hov]
  · rw [if_pos hov]
    simp only [checked_div_20, checked_sub_five, checked_add_five_of_ge _ hov]

/-! ## Claim theorems -/

/-- Claim C1: with the insurance pool configured, `reward_trade` is claimed
to mint `reward/10` to the insurance pool and the remainder to the trader,
totalling exactly the reward.  On a concrete accepted trade with reward 400
the code mints 40 to the insurance pool and the FULL 400 (not 360) to the
trader, so 440 is minted in total, contradicting the handler's own
"Mint remainder to the trader" comment. -/
theorem C1_reward_trade_insurance_total_overmints :
    reward_trade ⟨0, 0, 0⟩ ⟨7, 0, 0⟩ 200000 1000 5 true 1000 true 100 =
      .ok (⟨0, 0, 0⟩, ⟨7, 200000, 100⟩,
        [⟨MintDest.insurancePool, 40⟩, ⟨MintDest.trader, 400⟩]) ∧
    (400 : Nat) ≠ 400 - 400 / 10 ∧ (40 + 400 : Nat) ≠ 400 := by
  refine ⟨rfl, by decide, by decide⟩

/-- Claim C2 counterexample: an accepted trade-reward call leaves the
global state's `protocol_wide_volume` (here 12345) exactly as it was, so
the protocol-wide cumulative volume is NOT mutated by every accepted
trade-reward call. -/
theorem C2_counterexample_volume_unchanged :
    reward_trade ⟨0, 0, 12345⟩ ⟨7, 0, 0⟩ 1000 1000 5 true 1000 false 100 =
      .ok (⟨0, 0, 12345⟩, ⟨7, 1000, 100⟩, [⟨MintDest.trader, 1⟩]) := rfl

/-- Claim C2 (amended): no operation ever writes `protocol_wide_volume`:
every accepted trade-reward call returns the global state unchanged, and
the init handler also leaves the field untouched; the field is therefore
trivially monotonically non-decreasing. -/
theorem C2_protocol_volume_never_written
    (gs gs2 : GlobalState) (tv tv2 : TraderVolume)
    (trade_amount trade_price unique_trader_count : Nat) (feed_ok : Bool)
    (pyth_price : Int) (insurance_configured : Bool) (current_time : Int)
    (m : List MintEvent)
    (h : reward_trade gs tv trade_amount trade_price unique_trader_count
        feed_ok pyth_price insurance_configured current_time =
        .ok (gs2, tv2, m)) :
    gs2 = gs ∧
    (∀ mk b, (init_global_state gs mk b).protocol_wide_volume =
      gs.protocol_wide_volume) := by
  refine ⟨?_, fun mk b => rfl⟩
  rw [reward_trade_spec] at h
  repeat' split at h
  all_goals simp_all

theorem C2_protocol_volume_never_written_witness :
    (⟨0, 0, 12345⟩ : GlobalState) = ⟨0, 0, 12345⟩ ∧
    (∀ mk b, (init_global_state ⟨0, 0, 12345⟩ mk b).protocol_wide_volume =
      (⟨0, 0, 12345⟩ : GlobalState).protocol_wide_volume) :=
  C2_protocol_volume_never_written ⟨0, 0, 12345⟩ ⟨0, 0, 12345⟩ ⟨7, 0, 0⟩
    ⟨7, 1000, 100⟩ 1000 1000 5 true 1000 false 100 [⟨MintDest.trader, 1⟩] rfl

/-- Claim C3 counterexample: the reward multiplication is NOT
overflow-checked.  With `trade_amount = 2^62` the trade volume puts the
trader in the ×5 tier, the mathematical product `2^62 * 5` exceeds `2^64`,
yet the call succeeds with the wrapped reward `2^62 / 1000` instead of
failing with `ArithmeticOverflow`. -/
theorem C3_counterexample_mul_overflow_accepted :
    reward_trade ⟨0, 0, 0⟩ ⟨7, 0, 0⟩ (2 ^ 62) 1000 5 true 1000 false 100 =
      .ok (⟨0, 0, 0⟩, ⟨7, 2 ^ 62, 100⟩,
        [⟨MintDest.trader, 4611686018427387⟩]) ∧
    2 ^ 62 * 5 ≥ U64_MOD := by
  refine ⟨rfl, by decide⟩

/-- Claim C3 (amended): the multiplications in the reward computations are
unchecked and wrap modulo `2^64`; `ArithmeticOverflow` can only arise from
the checked price-band addition (so never from a multiplication), the LP
claim reward is the wrapped product divided by 100, and a stake claim
whose loyalty product mathematically overflows still succeeds, minting the
wrapped amount. -/
theorem C3_muls_unchecked_wrap :
    (∀ (gs : GlobalState) (tv : TraderVolume)
        (trade_amount trade_price unique_trader_count : Nat) (feed_ok : Bool)
        (pyth_price : Int) (insurance_configured : Bool) (current_time : Int),
        pyth_price.toNat + pyth_price.toNat / 20 < U64_MOD →
        reward_trade gs tv trade_amount trade_price unique_trader_count
          feed_ok pyth_price insurance_configured current_time ≠
          .error .ArithmeticOverflow) ∧
    (∀ lp : LpStakeAccount, (claim_lp_rewards lp).2 =
        [⟨MintDest.lpReward,
          lp.lp_staked * lp.reward_multiplier % U64_MOD / 100⟩]) ∧
    (claim_stake_rewards ⟨1, U64_MOD - 1, 0, false⟩ false (40 * 86400) =
      (⟨1, U64_MOD - 1, 0, false⟩,
       [⟨MintDest.stakerReward, 184467440737095515⟩]) ∧
     (U64_MOD - 1) / 10 * 11 ≥ U64_MOD) := by
  refine ⟨?_, fun lp => rfl, rfl, by decide⟩
  intro gs tv trade_amount trade_price unique_trader_count feed_ok
    pyth_price insurance_configured current_time hlt hEq
  rw [reward_trade_spec] at hEq
  repeat' split at hEq
  all_goals simp_all

theorem C3_muls_unchecked_wrap_witness :
    reward_trade ⟨0, 0, 0⟩ ⟨7, 0, 0⟩ 10 10 5 true 10 false 100 ≠
      .error .ArithmeticOverflow :=
  C3_muls_unchecked_wrap.1 ⟨0, 0, 0⟩ ⟨7, 0, 0⟩ 10 10 5 true 10 false 100
    (by decide)

/-- Claim C4: `reward_trade` checks its gates in order — fewer than 5
unique traders rejects first; with that gate passed (and a loadable,
non-negative, i64-representable price) a submitted price outside
`[oracle - oracle/20, oracle + oracle/20]` rejects with
`InvalidTradePrice`; with both passed, a current time not strictly after
the previous trade time plus the 60-unit cool-down rejects with
`FlashLoanDetected`.  Every rejection leaves the post-state equal to the
pre-state with no mints, and replaying the rejected call against that
post-state yields the same rejection. -/
theorem C4_gates_order_and_atomic_rejection (gs : GlobalState)
    (tv : TraderVolume) (trade_amount trade_price unique_trader_count : Nat)
    (feed_ok : Bool) (pyth_price : Int) (insurance_configured : Bool)
    (current_time : Int) :
    (unique_trader_count < 5 →
      reward_trade gs tv trade_amount trade_price unique_trader_count
        feed_ok pyth_price insurance_configured current_time =
        .error .InsufficientUniqueTraders) ∧
    (5 ≤ unique_trader_count → feed_ok = true → 0 ≤ pyth_price →
      pyth_price < 2 ^ 63 →
      ¬ (pyth_price.toNat - pyth_price.toNat / 20 ≤ trade_price ∧
         trade_price ≤ pyth_price.toNat + pyth_price.toNat / 20) →
      reward_trade gs tv trade_amount trade_price unique_trader_count
        feed_ok pyth_price insurance_configured current_time =
        .error .InvalidTradePrice) ∧
    (5 ≤ unique_trader_count → feed_ok = true → 0 ≤ pyth_price →
      pyth_price < 2 ^ 63 →
      pyth_price.toNat - pyth_price.toNat / 20 ≤ trade_price →
      trade_price ≤ pyth_price.toNat + pyth_price.toNat / 20 →
      -(2 ^ 63) ≤ tv.last_trade_time + 60 → tv.last_trade_time + 60 < 2 ^ 63 →
      ¬ (tv.last_trade_time + 60 < current_time) →
      reward_trade gs tv trade_amount trade_price unique_trader_count
        feed_ok pyth_price insurance_configured current_time =
        .error .FlashLoanDetected) ∧
    (∀ e, reward_trade gs tv trade_amount trade_price unique_trader_count
        feed_ok pyth_price insurance_configured current_time = .error e →
      reward_trade_step gs tv trade_amount trade_price unique_trader_count
        feed_ok pyth_price insurance_configured current_time =
        (gs, tv, [], some e) ∧
      reward_trade
        (reward_trade_step gs tv trade_amount trade_price unique_trader_count
          feed_ok pyth_price insurance_configured current_time).1
        (reward_trade_step gs tv trade_amount trade_price unique_trader_count
          feed_ok pyth_price insurance_configured current_time).2.1
        trade_amount trade_price unique_trader_count
        feed_ok pyth_price insurance_configured current_time = .error e) := by
  refine ⟨?_, ?_, ?_, ?_⟩
  · intro h5
    rw [reward_trade_spec, if_pos (by omega)]
  · intro h5 hfk h0 hlt hband
    have hov : pyth_price.toNat + pyth_price.toNat / 20 < U64_MOD := by
      have := Nat.div_le_self pyth_price.toNat 20
      simp only [U64_MOD]
      omega
    rw [reward_trade_spec, if_neg (by omega), if_neg (by simp [hfk]),
      if_neg (not_not_intro h0), if_neg (not_not_intro hov), if_pos hband]
  · intro h5 hfk h0 hlt hlo hhi hr1 hr2 hcool
    have hov : pyth_price.toNat + pyth_price.toNat / 20 < U64_MOD := by
      have := Nat.div_le_self pyth_price.toNat 20
      simp only [U64_MOD]
      omega
    rw [reward_trade_spec, if_neg (by omega), if_neg (by simp [hfk]),
      if_neg (not_not_intro h0), if_neg (not_not_intro hov),
      if_neg (not_not_intro ⟨hlo, hhi⟩),
      i64_wrap_eq_of_mem (tv.last_trade_time + 60) hr1 hr2, if_pos hcool]
  · intro e he
    have hstep : reward_trade_step gs tv trade_amount trade_price
        unique_trader_count feed_ok pyth_price insurance_configured
        current_time = (gs, tv, [], some e) := by
      simp [reward_trade_step, he]
    refine ⟨hstep, ?_⟩
    rw [hstep]
    exact he

theorem C4_gates_order_and_atomic_rejection_witness :
    reward_trade ⟨0, 0, 0⟩ ⟨7, 0, 0⟩ 1000 1000 4 true 1000 false 100 =
      .error .InsufficientUniqueTraders ∧
    reward_trade ⟨0, 0, 0⟩ ⟨7, 0, 0⟩ 1000 2000 5 true 1000 false 100 =
      .error .InvalidTradePrice ∧
    reward_trade ⟨0, 0, 0⟩ ⟨7, 0, 0⟩ 1000 1000 5 true 1000 false 30 =
      .error .FlashLoanDetected ∧
    reward_trade_step ⟨0, 0, 0⟩ ⟨7, 0, 0⟩ 1000 1000 4 true 1000 false 100 =
      (⟨0, 0, 0⟩, ⟨7, 0, 0⟩, [], some .InsufficientUniqueTraders) :=
  ⟨(C4_gates_order_and_atomic_rejection ⟨0, 0, 0⟩ ⟨7, 0, 0⟩ 1000 1000 4
      true 1000 false 100).1 (by decide),
   (C4_gates_order_and_atomic_rejection ⟨0, 0, 0⟩ ⟨7, 0, 0⟩ 1000 2000 5
      true 1000 false 100).2.1 (by decide) rfl (by decide) (by decide)
      (by decide),
   (C4_gates_order_and_atomic_rejection ⟨0, 0, 0⟩ ⟨7, 0, 0⟩ 1000 1000 5
      true 1000 false 30).2.2.1 (by decide) rfl (by decide) (by decide)
      (by decide) (by decide) (by decide) (by decide) (by decide),
   ((C4_gates_order_and_atomic_rejection ⟨0, 0, 0⟩ ⟨7, 0, 0⟩ 1000 1000 4
      true 1000 false 100).2.2.2 .InsufficientUniqueTraders
      ((C4_gates_order_and_atomic_rejection ⟨0, 0, 0⟩ ⟨7, 0, 0⟩ 1000 1000 4
        true 1000 false 100).1 (by decide))).1⟩

/-- Claim C5 counterexample: an oracle price of exactly zero is NOT
rejected — with a matching submitted price of 0 the trade is accepted and
rewarded, so `reward_trade` does not reject all non-positive prices with
`NegativePythPrice`. -/
theorem C5_counterexample_zero_price_accepted :
    reward_trade ⟨0, 0, 0⟩ ⟨7, 0, 0⟩ 1000 0 5 true 0 false 100 =
      .ok (⟨0, 0, 0⟩, ⟨7, 1000, 100⟩, [⟨MintDest.trader, 1⟩]) ∧
    ¬ ((0 : Int) < 0) := ⟨rfl, by decide⟩

/-- Claim C5 (amended): `reward_trade` rejects with `NegativePythPrice`
exactly the strictly negative oracle prices: any price `< 0` (once the
unique-trader gate passes and the feed loads) is rejected with that error
before any state change, and conversely that error only arises from a
price `< 0`; a price of exactly 0 passes the sign check. -/
theorem C5_rejects_only_strictly_negative (gs : GlobalState)
    (tv : TraderVolume) (trade_amount trade_price unique_trader_count : Nat)
    (feed_ok : Bool) (pyth_price : Int) (insurance_configured : Bool)
    (current_time : Int) :
    (5 ≤ unique_trader_count → feed_ok = true → pyth_price < 0 →
      reward_trade gs tv trade_amount trade_price unique_trader_count
        feed_ok pyth_price insurance_configured current_time =
        .error .NegativePythPrice ∧
      reward_trade_step gs tv trade_amount trade_price unique_trader_count
        feed_ok pyth_price insurance_configured current_time =
        (gs, tv, [], some .NegativePythPrice)) ∧
    (reward_trade gs tv trade_amount trade_price unique_trader_count
        feed_ok pyth_price insurance_configured current_time =
        .error .NegativePythPrice → pyth_price < 0) := by
  constructor
  · intro h5 hfk hneg
    have he : reward_trade gs tv trade_amount trade_price unique_trader_count
        feed_ok pyth_price insurance_configured current_time =
        .error .NegativePythPrice := by
      rw [reward_trade_spec, if_neg (by omega), if_neg (by simp [hfk]),
        if_pos (by omega)]
    exact ⟨he, by simp [reward_trade_step, he]⟩
  · intro h
    rw [reward_trade_spec] at h
    repeat' split at h
    all_goals simp_all

theorem C5_rejects_only_strictly_negative_witness :
    reward_trade ⟨0, 0, 0⟩ ⟨7, 0, 0⟩ 1000 1000 5 true (-3) false 100 =
      .error .NegativePythPrice ∧
    reward_trade_step ⟨0, 0, 0⟩ ⟨7, 0, 0⟩ 1000 1000 5 true (-3) false 100 =
      (⟨0, 0, 0⟩, ⟨7, 0, 0⟩, [], some .NegativePythPrice) :=
  (C5_rejects_only_strictly_negative ⟨0, 0, 0⟩ ⟨7, 0, 0⟩ 1000 1000 5 true
    (-3) false 100).1 (by decide) rfl (by decide)

/-- Claim C6 counterexample: a top-up stake on an existing position (old
`stake_timestamp` 100) at time 200 rewrites `stake_timestamp` to 200, so
the timestamp is NOT written only at first creation — the loyalty/penalty
clock resets on every top-up. -/
theorem C6_counterexample_topup_resets_timestamp :
    stake_tokens ⟨1, 500, 100, false⟩ 1 50 false 200 =
      some ⟨1, 550, 200, false⟩ ∧ (200 : Int) ≠ 100 := ⟨rfl, by decide⟩

/-- Claim C6 (amended): `stake_tokens` writes `stake_timestamp` on EVERY
successful call — including top-ups on an existing position — setting it
to the current time (and likewise rewrites owner and the auto-compound
flag, and adds the amount with a checked add). -/
theorem C6_stake_always_sets_timestamp (st : StakeAccount)
    (staker_authority amount : Nat) (auto_compound : Bool)
    (current_time : Int) (st2 : StakeAccount)
    (h : stake_tokens st staker_authority amount auto_compound current_time =
      some st2) :
    st2.stake_timestamp = current_time ∧ st2.amount = st.amount + amount ∧
    st2.owner = staker_authority ∧ st2.auto_compound = auto_compound := by
  unfold stake_tokens at h
  rcases hadd : u64_checked_add st.amount amount with _ | a2 <;> rw [hadd] at h
  · exact absurd h (by simp)
  · rw [Option.some.injEq] at h
    subst h
    rw [u64_checked_add] at hadd
    split at hadd
    · rw [Option.some.injEq] at hadd
      exact ⟨rfl, hadd.symm, rfl, rfl⟩
    · exact absurd hadd (by simp)

theorem C6_stake_always_sets_timestamp_witness :
    (⟨3, 17, 42, false⟩ : StakeAccount).stake_timestamp = 42 ∧
    (⟨3, 17, 42, false⟩ : StakeAccount).amount =
      (⟨2, 10, 5, true⟩ : StakeAccount).amount + 7 ∧
    (⟨3, 17, 42, false⟩ : StakeAccount).owner = 3 ∧
    (⟨3, 17, 42, false⟩ : StakeAccount).auto_compound = false :=
  C6_stake_always_sets_timestamp ⟨2, 10, 5, true⟩ 3 7 false 42
    ⟨3, 17, 42, false⟩ rfl

/-- Claim C7 counterexample: with staked amount 100,000 and `time_staked`
3 days the loyalty multiplier is 1.0 (not the 1.1 the example carries
over), so the pre-penalty reward is 10,000, the treasury fee is 1,000 —
not the claimed 1,100 — and the staker payout is 9,000, not 9,900. -/
theorem C7_counterexample_penalty_example :
    claim_stake_rewards ⟨1, 100000, 0, false⟩ false (3 * 86400) =
      (⟨1, 100000, 0, false⟩,
       [⟨MintDest.daoTreasury, 1000⟩, ⟨MintDest.stakerReward, 9000⟩]) ∧
    (1000 : Nat) ≠ 1100 := ⟨rfl, by decide⟩

/-- Claim C7 (amended): the 40-day example holds as stated — base reward
10,000, loyalty 1.1, final reward 11,000 minted to the staker, or staked
amount compounded to 111,000 with no mint when auto-compounding.  In the
3-day penalty variant the loyalty multiplier drops back to 1.0, so the
treasury fee is floor(10,000 * 10 / 100) = 1,000 minted to the DAO
treasury and 9,000 is paid to the staker. -/
theorem C7_claim_examples_amended :
    claim_stake_rewards ⟨1, 100000, 0, false⟩ false (40 * 86400) =
      (⟨1, 100000, 0, false⟩, [⟨MintDest.stakerReward, 11000⟩]) ∧
    claim_stake_rewards ⟨1, 100000, 0, true⟩ false (40 * 86400) =
      (⟨1, 111000, 0, true⟩, []) ∧
    claim_stake_rewards ⟨1, 100000, 0, false⟩ false (3 * 86400) =
      (⟨1, 100000, 0, false⟩,
       [⟨MintDest.daoTreasury, 1000⟩, ⟨MintDest.stakerReward, 9000⟩]) :=
  ⟨rfl, rfl, rfl⟩

/-- Claim C8: an LP stake adds the amount to `lp_staked` with a checked
add and recomputes the tier multiplier purely from the new cumulative
amount (`>1,000,000 → 5`, `>100,000 → 2`, else 1); an LP claim leaves the
LP stake account unchanged and mints `lp_staked * multiplier / 100`; and
in particular staking 50,000 then 100,000 gives `lp_staked` 150,000 with
multiplier 2 and a claim reward of 3,000. -/
theorem C8_lp_stake_claim (lp lp2 : LpStakeAccount)
    (staker_authority amount : Nat)
    (h : stake_lp_tokens lp staker_authority amount = some lp2) :
    (lp2.lp_staked = lp.lp_staked + amount ∧
     lp2.reward_multiplier =
       (if lp.lp_staked + amount > 1000000 then 5
        else if lp.lp_staked + amount > 100000 then 2 else 1)) ∧
    (∀ q : LpStakeAccount, (claim_lp_rewards q).1 = q) ∧
    (∀ q : LpStakeAccount, q.lp_staked * q.reward_multiplier < U64_MOD →
      (claim_lp_rewards q).2 =
        [⟨MintDest.lpReward, q.lp_staked * q.reward_multiplier / 100⟩]) ∧
    ((stake_lp_tokens ⟨9, 0, 0⟩ 9 50000).bind
        (fun r => stake_lp_tokens r 9 100000) = some ⟨9, 150000, 2⟩ ∧
     (claim_lp_rewards ⟨9, 150000, 2⟩).2 = [⟨MintDest.lpReward, 3000⟩]) := by
  refine ⟨?_, fun q => rfl, ?_, rfl, rfl⟩
  · unfold stake_lp_tokens at h
    rcases hadd : u64_checked_add lp.lp_staked amount with _ | tvl <;>
      rw [hadd] at h
    · exact absurd h (by simp)
    · rw [Option.some.injEq] at h
      subst h
      rw [u64_checked_add] at hadd
      split at hadd
      · rw [Option.some.injEq] at hadd
        subst hadd
        exact ⟨rfl, rfl⟩
      · exact absurd hadd (by simp)
  · intro q hq
    simp [claim_lp_rewards, u64_wrapping_mul, Nat.mod_eq_of_lt hq]

theorem C8_lp_stake_claim_witness :
    ((⟨9, 50000, 1⟩ : LpStakeAccount).lp_staked =
        (⟨9, 0, 0⟩ : LpStakeAccount).lp_staked + 50000 ∧
     (⟨9, 50000, 1⟩ : LpStakeAccount).reward_multiplier = 1) ∧
    (claim_lp_rewards ⟨9, 150000, 2⟩).1 = ⟨9, 150000, 2⟩ ∧
    (claim_lp_rewards ⟨9, 150000, 2⟩).2 = [⟨MintDest.lpReward, 3000⟩] := by
  have h := C8_lp_stake_claim ⟨9, 0, 0⟩ ⟨9, 50000, 1⟩ 9 50000 rfl
  exact ⟨⟨h.1.1, rfl⟩, h.2.1 ⟨9, 150000, 2⟩, h.2.2.1 ⟨9, 150000, 2⟩ (by decide)⟩

/-- Claim C9: `update_reward_parameters` rejects with
`InvalidRewardParameters` when the new base reward exceeds 50 or the new
LP boost exceeds 10, rejects with `GovernanceNotApproved` when the
approval flag is not already true, and otherwise stores both supplied
values; any rejection leaves the stored parameters unchanged. -/
theorem C9_update_parameters (g : Governance) (new_reward new_lp_boost : Nat) :
    (50 < new_reward ∨ 10 < new_lp_boost →
      update_reward_parameters g new_reward new_lp_boost =
        .error .InvalidRewardParameters) ∧
    (new_reward ≤ 50 → new_lp_boost ≤ 10 → g.dao_approved = false →
      update_reward_parameters g new_reward new_lp_boost =
        .error .GovernanceNotApproved) ∧
    (new_reward ≤ 50 → new_lp_boost ≤ 10 → g.dao_approved = true →
      update_reward_parameters g new_reward new_lp_boost =
        .ok { g with reward_percentage := new_reward, lp_boost := new_lp_boost }) ∧
    (∀ e, update_reward_parameters g new_reward new_lp_boost = .error e →
      update_reward_parameters_step g new_reward new_lp_boost = (g, some e)) := by
  refine ⟨?_, ?_, ?_, ?_⟩
  · intro h
    rcases h with h | h
    · rw [update_reward_parameters, if_pos (by omega)]
    · unfold update_reward_parameters
      by_cases h1 : ¬ (new_reward ≤ 50)
      · rw [if_pos h1]
      · rw [if_neg h1, if_pos (by omega)]
  · intro h1 h2 h3
    rw [update_reward_parameters, if_neg (not_not_intro h1),
      if_neg (not_not_intro h2), if_pos (by simp [h3])]
  · intro h1 h2 h3
    rw [update_reward_parameters, if_neg (not_not_intro h1),
      if_neg (not_not_intro h2), if_neg (by simp [h3])]
  · intro e he
    simp [update_reward_parameters_step, he]

theorem C9_update_parameters_witness :
    update_reward_parameters ⟨0, 1, 2, true⟩ 51 5 =
      .error .InvalidRewardParameters ∧
    update_reward_parameters ⟨0, 1, 2, false⟩ 20 5 =
      .error .GovernanceNotApproved ∧
    update_reward_parameters ⟨0, 1, 2, true⟩ 20 5 = .ok ⟨0, 20, 5, true⟩ ∧
    update_reward_parameters_step ⟨0, 1, 2, false⟩ 20 5 =
      (⟨0, 1, 2, false⟩, some .GovernanceNotApproved) := by
  have h1 := C9_update_parameters ⟨0, 1, 2, true⟩ 51 5
  have h2 := C9_update_parameters ⟨0, 1, 2, false⟩ 20 5
  have h3 := C9_update_parameters ⟨0, 1, 2, true⟩ 20 5
  exact ⟨h1.1 (by omega), h2.2.1 (by omega) (by omega) rfl,
    h3.2.2.1 (by omega) (by omega) rfl,
    h2.2.2.2 .GovernanceNotApproved (h2.2.1 (by omega) (by omega) rfl)⟩

/-- Claim C10: `claim_stake_rewards` never changes `stake_timestamp`;
when the position is not auto-compounding it returns the staker account
entirely unchanged, so a repeated claim against the resulting state with
the same clock computes and mints exactly the same rewards again. -/
theorem C10_claim_frame (st : StakeAccount) (boosted : Bool)
    (current_time : Int) :
    (claim_stake_rewards st boosted current_time).1.stake_timestamp =
      st.stake_timestamp ∧
    (st.auto_compound = false →
      (claim_stake_rewards st boosted current_time).1 = st) ∧
    (st.auto_compound = false →
      claim_stake_rewards (claim_stake_rewards st boosted current_time).1
        boosted current_time =
        claim_stake_rewards st boosted current_time) := by
  refine ⟨?_, ?_, ?_⟩
  · by_cases hac : st.auto_compound <;> simp [claim_stake_rewards, hac]
  · intro hac
    simp [claim_stake_rewards, hac]
  · intro hac
    simp [claim_stake_rewards, hac]

theorem C10_claim_frame_witness :
    (claim_stake_rewards ⟨1, 100000, 0, false⟩ false 86400).1.stake_timestamp =
      (⟨1, 100000, 0, false⟩ : StakeAccount).stake_timestamp ∧
    (claim_stake_rewards ⟨1, 100000, 0, false⟩ false 86400).1 =
      ⟨1, 100000, 0, false⟩ :=
  ⟨(C10_claim_frame ⟨1, 100000, 0, false⟩ false 86400).1,
   (C10_claim_frame ⟨1, 100000, 0, false⟩ false 86400).2.1 rfl⟩

end MultiYield
